import Mathlib

/-!
Verification development for the OpenCut browser video export service
(apps/web/src/lib/ffmpeg-utils.ts, class VideoExportService).

Modelling conventions:
* JavaScript numbers that carry times, dimensions, orders and font sizes are
  modelled as rationals.
* Duck-typed timeline records (tracks, elements, media items) are modelled as
  structures whose optional JS fields become Option types.
* Asynchronous control flow with try/catch cascades is modelled by Except
  values; the outcome of each external effect (media load, recorder tier) is
  passed in as an explicit parameter, since the browser environment decides it.
-/

namespace OpenCut

/-- JS inline or default on a rational field: the expression `x || d` yields
`d` when `x` is undefined or `0` (both falsy in JS). -/
def jsOrQ (x : Option ℚ) (d : ℚ) : ℚ :=
  match x with
  | none => d
  | some v => if v = 0 then d else v

/-- Media item type tag, the `type` field of a MediaItem record. -/
inductive MediaType
  | video
  | audio
  | image
  deriving DecidableEq

/-- Track type tag, the `type` field of a TimelineTrack record. -/
inductive TrackType
  | video
  | audio
  | media
  | text
  deriving DecidableEq

/-- Element kind tag, the `type` field of a TimelineElement record. -/
inductive ElementKind
  | media
  | text
  deriving DecidableEq

/-- Timeline element record: the fields of a TimelineElement that the export
service reads. `fontSize` is optional because text records may omit it. -/
structure TimelineElement where
  kind : ElementKind
  mediaId : String
  name : String
  startTime : ℚ
  duration : ℚ
  trimStart : ℚ
  trimEnd : ℚ
  fontSize : Option ℚ
  deriving DecidableEq

/-- Timeline track record. `order` is optional: the code reads it as
`track.order || 0`. -/
structure Track where
  ttype : TrackType
  order : Option ℚ
  elements : List TimelineElement
  deriving DecidableEq

/-- Media item record from the media store. `url` is optional and the code
tests it for truthiness (missing and empty string are falsy). -/
structure MediaItem where
  id : String
  mtype : MediaType
  url : Option String
  name : String
  deriving DecidableEq

/-- Truthiness of the JS `url` field: undefined and the empty string are
falsy, every other string is truthy. -/
def urlTruthy (u : Option String) : Bool :=
  match u with
  | none => false
  | some s => s ≠ ""

/-- Render rectangle returned by `calculateRenderInfo`. -/
structure RenderRect where
  x : ℚ
  y : ℚ
  width : ℚ
  height : ℚ
  deriving DecidableEq

/-- Translation of `VideoExportService.calculateRenderInfo` (lines 926-965).
It receives the intrinsic media dimensions (videoWidth/videoHeight or
naturalWidth/naturalHeight) and the canvas dimensions, guards against a zero
intrinsic dimension by returning the full-canvas rectangle, and otherwise
aspect-fits the media into the canvas, centred on both axes. -/
def calculateRenderInfo (mediaWidth mediaHeight canvasWidth canvasHeight : ℚ) :
    RenderRect :=
  if mediaWidth = 0 ∨ mediaHeight = 0 then
    { x := 0, y := 0, width := canvasWidth, height := canvasHeight }
  else
    let mediaAspect := mediaWidth / mediaHeight
    let canvasAspect := canvasWidth / canvasHeight
    let renderWidth := if mediaAspect > canvasAspect then canvasWidth else canvasHeight * mediaAspect
    let renderHeight := if mediaAspect > canvasAspect then canvasWidth / mediaAspect else canvasHeight
    { x := (canvasWidth - renderWidth) / 2,
      y := (canvasHeight - renderHeight) / 2,
      width := renderWidth,
      height := renderHeight }

/-- Claim C6: for media of intrinsic size (w, h) with w > 0 and h > 0 and a
canvas of size (W, H), the rectangle computed by calculateRenderInfo preserves
the aspect ratio (width / height = w / h), fits inside the canvas, and is
centred on both axes. -/
theorem calculateRenderInfo_aspect_fit (w h W H : ℚ)
    (hw : 0 < w) (hh : 0 < h) (hW : 0 < W) (hH : 0 < H) :
    (calculateRenderInfo w h W H).width / (calculateRenderInfo w h W H).height = w / h ∧
    (calculateRenderInfo w h W H).width ≤ W ∧
    (calculateRenderInfo w h W H).height ≤ H ∧
    (calculateRenderInfo w h W H).x = (W - (calculateRenderInfo w h W H).width) / 2 ∧
    (calculateRenderInfo w h W H).y = (H - (calculateRenderInfo w h W H).height) / 2 := by
  have hw0 : w ≠ 0 := ne_of_gt hw
  have hh0 : h ≠ 0 := ne_of_gt hh
  have hW0 : W ≠ 0 := ne_of_gt hW
  have hH0 : H ≠ 0 := ne_of_gt hH
  have hguard : ¬ (w = 0 ∨ h = 0) := by
    rintro (h1 | h2)
    · exact hw0 h1
    · exact hh0 h2
  have haspect : 0 < w / h := div_pos hw hh
  simp only [calculateRenderInfo, hguard, if_false]
  by_cases hc : w / h > W / H
  · simp only [hc, if_true]
    refine ⟨?_, ?_, ?_, ?_, ?_⟩
    · have hq : W / (w / h) ≠ 0 := by
        apply div_ne_zero hW0 (ne_of_gt haspect)
      field_simp
      ring
    · trivial
    · have h2 : W * h < w * H := by
        rw [gt_iff_lt, div_lt_div_iff₀ hH hh] at hc
        linarith [hc]
      rw [div_le_iff₀ haspect, ← mul_div_assoc, le_div_iff₀ hh]
      linarith [h2]
    · trivial
    · trivial
  · simp only [hc, if_false]
    refine ⟨?_, ?_, ?_, ?_, ?_⟩
    · rw [mul_comm, mul_div_assoc, div_self hH0, mul_one]
    · have h1 : w / h ≤ W / H := le_of_not_lt hc
      have h2 : w * H ≤ W * h := by
        rw [div_le_div_iff₀ hh hH] at h1
        linarith [h1]
      rw [← mul_div_assoc, div_le_iff₀ hh]
      linarith [h2]
    · trivial
    · trivial
    · trivial

/-- Witness for C6 at a 1280 x 720 video on a 1920 x 1080 canvas. -/
theorem calculateRenderInfo_aspect_fit_witness :
    (0:ℚ) < 1280 ∧
    (calculateRenderInfo 1280 720 1920 1080).width / (calculateRenderInfo 1280 720 1920 1080).height
      = (1280:ℚ) / 720 ∧
    (calculateRenderInfo 1280 720 1920 1080).width ≤ 1920 ∧
    (calculateRenderInfo 1280 720 1920 1080).height ≤ 1080 ∧
    (calculateRenderInfo 1280 720 1920 1080).x
      = (1920 - (calculateRenderInfo 1280 720 1920 1080).width) / 2 ∧
    (calculateRenderInfo 1280 720 1920 1080).y
      = (1080 - (calculateRenderInfo 1280 720 1920 1080).height) / 2 :=
  ⟨by norm_num,
   calculateRenderInfo_aspect_fit 1280 720 1920 1080
     (by norm_num) (by norm_num) (by norm_num) (by norm_num)⟩

/-- Claim C10: when either intrinsic media dimension is zero,
calculateRenderInfo returns the full-canvas rectangle and performs no
division by the media dimensions. -/
theorem calculateRenderInfo_zero_dim (w h W H : ℚ) (hzero : w = 0 ∨ h = 0) :
    calculateRenderInfo w h W H = { x := 0, y := 0, width := W, height := H } := by
  simp only [calculateRenderInfo, hzero, if_true]

/-- Witness for C10 at a degenerate media handle of width zero. -/
theorem calculateRenderInfo_zero_dim_witness :
    calculateRenderInfo 0 720 1920 1080 = { x := 0, y := 0, width := 1920, height := 1080 } :=
  calculateRenderInfo_zero_dim 0 720 1920 1080 (Or.inl rfl)

/-- Active-window test from getActiveElementsAtTime (lines 737-741): the
element is active when elementStart <= currentTime < elementEnd, where
elementEnd is startTime plus the trimmed duration, with no lower bound on
the window. -/
def isActiveAt (currentTime : ℚ) (element : TimelineElement) : Bool :=
  let elementStart := element.startTime
  let elementEnd :=
    element.startTime + (element.duration - element.trimStart - element.trimEnd)
  decide (elementStart ≤ currentTime) && decide (currentTime < elementEnd)

/-- Entry pushed by getActiveElementsAtTime for one active element. -/
structure ActiveEntry where
  element : TimelineElement
  track : Track
  mediaItem : Option MediaItem
  deriving DecidableEq

/-- Media-item resolution from getActiveElementsAtTime (lines 744-749): only
media elements resolve an item, the sentinel id "test" resolves to null, and
otherwise the first store item with a matching id is used (null if none). -/
def resolveMediaItem (element : TimelineElement) (mediaItems : List MediaItem) :
    Option MediaItem :=
  if element.kind = ElementKind.media then
    if element.mediaId = "test" then none
    else mediaItems.find? fun item => item.id == element.mediaId
  else none

/-- Translation of getActiveElementsAtTime (lines 725-757): for every track
and every element of that track, in order, push an entry when the active
window test passes. -/
def getActiveElementsAtTime (currentTime : ℚ) (tracks : List Track)
    (mediaItems : List MediaItem) : List ActiveEntry :=
  tracks.flatMap fun track =>
    track.elements.filterMap fun element =>
      if isActiveAt currentTime element then
        some { element := element, track := track,
               mediaItem := resolveMediaItem element mediaItems }
      else none

/-- Element used to refute the epsilon-window reading of C1: its trimmed
duration is exactly zero. -/
def zeroWindowElem : TimelineElement :=
  { kind := ElementKind.text, mediaId := "", name := "zero-window",
    startTime := 0, duration := 2, trimStart := 1, trimEnd := 1, fontSize := none }

/-- Track holding only the zero-window element. -/
def zeroWindowTrack : Track :=
  { ttype := TrackType.text, order := some 0, elements := [zeroWindowElem] }

/-- Counterexample to C1: no epsilon > 0 makes the claimed window formula
match the code, because an element whose trimmed duration is zero is active
at no timestamp at all, while the claimed formula makes it active on an
epsilon-length window starting at startTime. -/
theorem getActiveElementsAtTime_no_epsilon :
    ¬ ∃ ε : ℚ, 0 < ε ∧ ∀ t : ℚ,
      ((∃ entry ∈ getActiveElementsAtTime t [zeroWindowTrack] [],
          entry.element = zeroWindowElem) ↔
        (zeroWindowElem.startTime ≤ t ∧
          t < zeroWindowElem.startTime +
            max ε (zeroWindowElem.duration - zeroWindowElem.trimStart -
              zeroWindowElem.trimEnd))) := by
  rintro ⟨ε, hε, h⟩
  have hwindow :
      zeroWindowElem.duration - zeroWindowElem.trimStart - zeroWindowElem.trimEnd = 0 := by
    norm_num [zeroWindowElem]
  have hclaim : zeroWindowElem.startTime ≤ 0 ∧
      0 < zeroWindowElem.startTime +
        max ε (zeroWindowElem.duration - zeroWindowElem.trimStart -
          zeroWindowElem.trimEnd) := by
    rw [hwindow]
    constructor
    · norm_num [zeroWindowElem]
    · have hmax : ε ≤ max ε 0 := le_max_left ε 0
      have h0 : zeroWindowElem.startTime = 0 := by norm_num [zeroWindowElem]
      rw [h0, zero_add]
      exact lt_of_lt_of_le hε hmax
  obtain ⟨entry, hmem, _⟩ := (h 0).mpr hclaim
  have hinactive : isActiveAt 0 zeroWindowElem = false := by
    simp only [isActiveAt, zeroWindowElem, Bool.and_eq_false_iff, decide_eq_false_iff_not]
    norm_num
  have hempty : getActiveElementsAtTime 0 [zeroWindowTrack] [] = [] := by
    simp [getActiveElementsAtTime, zeroWindowTrack, hinactive]
  rw [hempty] at hmem
  exact absurd hmem (List.not_mem_nil entry)

/-- Claim C1 (amended): an element is included by getActiveElementsAtTime at
time t exactly when it lies on one of the tracks and
startTime <= t < startTime + (duration - trimStart - trimEnd); there is no
epsilon floor, the upper boundary is excluded, and a zero or negative trimmed
duration makes the element active nowhere. -/
theorem getActiveElementsAtTime_mem_iff (t : ℚ) (tracks : List Track)
    (mediaItems : List MediaItem) (e : TimelineElement) :
    (∃ entry ∈ getActiveElementsAtTime t tracks mediaItems, entry.element = e) ↔
      ((∃ track ∈ tracks, e ∈ track.elements) ∧
        (e.startTime ≤ t ∧
          t < e.startTime + (e.duration - e.trimStart - e.trimEnd))) := by
  constructor
  · rintro ⟨entry, hmem, hel⟩
    rw [getActiveElementsAtTime, List.mem_flatMap] at hmem
    obtain ⟨track, htrack, hentry⟩ := hmem
    rw [List.mem_filterMap] at hentry
    obtain ⟨el, helmem, heq⟩ := hentry
    by_cases hact : isActiveAt t el
    · rw [if_pos hact] at heq
      have hentry_eq :
          entry = { element := el, track := track,
                    mediaItem := resolveMediaItem el mediaItems } :=
        (Option.some.inj heq).symm
      have hel_eq : el = e := by rw [hentry_eq] at hel; exact hel
      subst hel_eq
      have hbounds := hact
      simp only [isActiveAt, Bool.and_eq_true, decide_eq_true_eq] at hbounds
      exact ⟨⟨track, htrack, helmem⟩, hbounds⟩
    · rw [if_neg hact] at heq
      exact absurd heq (Option.noConfusion)
  · rintro ⟨⟨track, htrack, helmem⟩, hlo, hhi⟩
    refine ⟨{ element := e, track := track,
              mediaItem := resolveMediaItem e mediaItems }, ?_, rfl⟩
    rw [getActiveElementsAtTime, List.mem_flatMap]
    refine ⟨track, htrack, ?_⟩
    rw [List.mem_filterMap]
    refine ⟨e, helmem, ?_⟩
    have hact : isActiveAt t e = true := by
      simp only [isActiveAt, Bool.and_eq_true, decide_eq_true_eq]
      exact ⟨hlo, hhi⟩
    rw [if_pos hact]

/-- Font size computation from renderTextElementSafe (lines 816-818): the JS
reads element.fontSize with a fallback of 48 via the or-operator, scales by
min(canvasWidth / 1920, canvasHeight / 1080) * 2 and floors the result at 32. -/
def renderTextFontSize (element : TimelineElement) (canvasWidth canvasHeight : ℚ) : ℚ :=
  let baseFontSize := jsOrQ element.fontSize 48
  let fontScale := min (canvasWidth / 1920) (canvasHeight / 1080) * 2
  max 32 (baseFontSize * fontScale)

/-- Font-size formula as claim C9 words it: baseFontSize is the fontSize
field, defaulting to 48 only when the field is unset. -/
def claimedTextFontSize (element : TimelineElement) (canvasWidth canvasHeight : ℚ) : ℚ :=
  max 32 (element.fontSize.getD 48 *
    (min (canvasWidth / 1920) (canvasHeight / 1080) * 2))

/-- Text element whose fontSize field is present but zero. -/
def zeroFontElem : TimelineElement :=
  { kind := ElementKind.text, mediaId := "", name := "zero-font",
    startTime := 0, duration := 1, trimStart := 0, trimEnd := 0, fontSize := some 0 }

/-- Counterexample to C9: on a text element with fontSize 0 and a 1920 x 1080
canvas the code produces 96 (the JS or-operator replaces 0 by 48), while the
claimed formula produces the floor 32. -/
theorem renderTextFontSize_zero_refuted :
    renderTextFontSize zeroFontElem 1920 1080 = 96 ∧
    claimedTextFontSize zeroFontElem 1920 1080 = 32 ∧
    renderTextFontSize zeroFontElem 1920 1080 ≠
      claimedTextFontSize zeroFontElem 1920 1080 := by
  have h1 : renderTextFontSize zeroFontElem 1920 1080 = 96 := by
    norm_num [renderTextFontSize, jsOrQ, zeroFontElem, max_def, min_def]
  have h2 : claimedTextFontSize zeroFontElem 1920 1080 = 32 := by
    norm_num [claimedTextFontSize, zeroFontElem, max_def, min_def]
  refine ⟨h1, h2, ?_⟩
  rw [h1, h2]
  norm_num

/-- Claim C9 (amended): for every text element and every canvas, the
rendered font size never goes below the 32 pixel floor, with no restriction
on the fontSize field; and whenever the fontSize field is not the falsy
value 0, the effective font size equals
max(32, baseFontSize * min(W / 1920, H / 1080) * 2) with baseFontSize the
fontSize field defaulting to 48 when unset (a fontSize of 0 is also replaced
by 48, which is what the counterexample forces out of the original claim). -/
theorem renderTextFontSize_spec (element : TimelineElement) (W H : ℚ) :
    32 ≤ renderTextFontSize element W H ∧
    (element.fontSize ≠ some 0 →
      renderTextFontSize element W H = claimedTextFontSize element W H) := by
  constructor
  · exact le_max_left 32 _
  · intro h
    unfold renderTextFontSize claimedTextFontSize jsOrQ
    cases hfs : element.fontSize with
    | none => simp
    | some v =>
      have hv : v ≠ 0 := by
        rintro rfl
        exact h hfs
      simp [hv]

/-- Text element with an ordinary explicit font size. -/
def plainFontElem : TimelineElement :=
  { kind := ElementKind.text, mediaId := "", name := "caption",
    startTime := 0, duration := 1, trimStart := 0, trimEnd := 0, fontSize := some 40 }

/-- Witness for the amended C9 at fontSize 40 on a 1280 x 720 canvas: the
floor holds outright, and the formula part is discharged at the concrete
non-zero fontSize. -/
theorem renderTextFontSize_spec_witness :
    32 ≤ renderTextFontSize plainFontElem 1280 720 ∧
    plainFontElem.fontSize ≠ some 0 ∧
    renderTextFontSize plainFontElem 1280 720 = claimedTextFontSize plainFontElem 1280 720 :=
  ⟨(renderTextFontSize_spec plainFontElem 1280 720).1,
   by decide,
   (renderTextFontSize_spec plainFontElem 1280 720).2 (by decide)⟩

/-- Frame cap from renderVideoContentSafe (line 559): maximum 600 frames. -/
def maxFrames : ℕ := 600

/-- Total frame count from renderVideoContentSafe (line 560):
min(ceil(duration * fps), maxFrames). -/
def totalFramesFor (duration : ℚ) (fps : ℕ) : ℕ :=
  min (Int.toNat ⌈duration * (fps : ℚ)⌉) maxFrames

/-- Timestamps rendered by the renderFrame loop of renderVideoContentSafe
(lines 569-613), starting at frame index current with rem further frames
after the current one. The JS loop body always renders the current frame
first and only afterwards compares the incremented counter against the
total, so the loop is encoded structurally on the number of frames that
remain after the current one. -/
def renderFrameTimes (frameTime : ℚ) : ℕ → ℕ → List ℚ
  | current, 0 => [(current : ℚ) * frameTime]
  | current, Nat.succ rem =>
      (current : ℚ) * frameTime :: renderFrameTimes frameTime (current + 1) rem

/-- The timestamps rendered for one export: frameTime is 1 / fps, the loop
starts at frame 0, and with totalFrames = n the check current >= n happens
only after a frame was rendered, so n - 1 frames follow the first one. -/
def renderVideoFrameTimes (duration : ℚ) (fps : ℕ) : List ℚ :=
  renderFrameTimes (1 / (fps : ℚ)) 0 (totalFramesFor duration fps - 1)

/-- Length of the rendered-frame list, one more than the remaining count. -/
theorem renderFrameTimes_length (frameTime : ℚ) (current rem : ℕ) :
    (renderFrameTimes frameTime current rem).length = rem + 1 := by
  induction rem generalizing current with
  | zero => rfl
  | succ n ih => simp [renderFrameTimes, ih]

/-- Entry i of the rendered-frame list is frame current + i. -/
theorem renderFrameTimes_get (frameTime : ℚ) (current rem : ℕ) (i : ℕ)
    (hi : i < (renderFrameTimes frameTime current rem).length) :
    (renderFrameTimes frameTime current rem).get ⟨i, hi⟩ =
      ((current + i : ℕ) : ℚ) * frameTime := by
  induction rem generalizing current i with
  | zero =>
    rw [renderFrameTimes_length] at hi
    interval_cases i
    simp [renderFrameTimes]
  | succ n ih =>
    cases i with
    | zero => simp [renderFrameTimes]
    | succ j =>
      have hj : j < (renderFrameTimes frameTime (current + 1) n).length := by
        rw [renderFrameTimes_length] at hi ⊢
        omega
      have := ih (current + 1) j hj
      simp only [renderFrameTimes, List.get_cons_succ]
      rw [this]
      congr 1
      push_cast
      ring

/-- Counterexample to C3: at duration 0 the loop still renders one frame,
while the claimed count min(ceil(0 * 60), 600) is zero. -/
theorem renderVideoFrameTimes_zero_duration :
    (renderVideoFrameTimes 0 60).length = 1 ∧
    min (Int.toNat ⌈(0 : ℚ) * ((60 : ℕ) : ℚ)⌉) 600 = 0 := by
  constructor
  · rw [renderVideoFrameTimes, renderFrameTimes_length]
    norm_num [totalFramesFor, maxFrames]
  · norm_num

/-- Claim C3 (amended): for duration d >= 0 and positive fps the render loop
renders exactly max(1, min(ceil(d * fps), 600)) frames (the loop body runs
once before the counter is first compared against the total, so an empty
timeline still yields one frame), and frame i is rendered at t = i / fps; in
particular duration 100 at 60 fps renders 600 frames, not 6000. -/
theorem renderVideoFrameTimes_spec (duration : ℚ) (fps : ℕ)
    (hfps : 0 < fps) (hdur : 0 ≤ duration) :
    (renderVideoFrameTimes duration fps).length =
      max 1 (min (Int.toNat ⌈duration * (fps : ℚ)⌉) 600) ∧
    ∀ i : ℕ, ∀ hi : i < (renderVideoFrameTimes duration fps).length,
      (renderVideoFrameTimes duration fps).get ⟨i, hi⟩ = (i : ℚ) / (fps : ℚ) := by
  constructor
  · rw [renderVideoFrameTimes, renderFrameTimes_length, totalFramesFor, maxFrames]
    omega
  · intro i hi
    have h := renderFrameTimes_get (1 / (fps : ℚ)) 0 (totalFramesFor duration fps - 1) i hi
    have h2 : ((0 + i : ℕ) : ℚ) * (1 / (fps : ℚ)) = (i : ℚ) / (fps : ℚ) := by
      push_cast
      ring
    exact h.trans h2

/-- Witness for the amended C3 at duration 100 and 60 fps. -/
theorem renderVideoFrameTimes_spec_witness :
    0 < 60 ∧ (0 : ℚ) ≤ 100 ∧
    (renderVideoFrameTimes 100 60).length =
      max 1 (min (Int.toNat ⌈(100 : ℚ) * ((60 : ℕ) : ℚ)⌉) 600) :=
  ⟨by norm_num, by norm_num,
   (renderVideoFrameTimes_spec 100 60 (by norm_num) (by norm_num)).1⟩

/-- Outcome of one asynchronous export stage: fulfilled, or rejected with an
error message. -/
abbrev StageOutcome := Except String Unit

/-- Translation of createRealVideoFile (lines 215-364) at the level of its
try/catch structure: the primary canvas-plus-recorder attempt runs first; on
its failure the secondary single-frame image attempt runs; a secondary
failure is rethrown, and the outer catch rethrows every error it receives.
The outcome of each attempt is a parameter because the browser environment
decides it. -/
def createRealVideoFile (primary secondary : StageOutcome) : StageOutcome :=
  match primary with
  | Except.ok _ => Except.ok ()
  | Except.error _ =>
    match secondary with
    | Except.ok _ => Except.ok ()
    | Except.error e => Except.error e

/-- The 15 second Promise.race in exportVideo (lines 150-155): when the
timeout settles first the race rejects, otherwise it settles like the
createRealVideoFile promise. -/
def raceWithTimeout (result : StageOutcome) (timeoutWins : Bool) : StageOutcome :=
  if timeoutWins then Except.error "Export timeout after 15 seconds" else result

/-- Translation of VideoExportService.exportVideo (lines 133-168): the try
block awaits the full-render tier under the race; on any rejection the catch
block awaits createEmergencyFallback, whose own rejection, if any, escapes
to the caller. -/
def exportVideo (primary secondary : StageOutcome) (timeoutWins : Bool)
    (emergency : StageOutcome) : StageOutcome :=
  match raceWithTimeout (createRealVideoFile primary secondary) timeoutWins with
  | Except.ok _ => Except.ok ()
  | Except.error _ => emergency

/-- Claim C2: whatever the full-render tier does (either internal attempt
throwing, or the 15 second timeout winning the race), exportVideo resolves
whenever the emergency plain-text tier delivers, and any rejection seen by
the caller is exactly a rejection of the emergency tier. -/
theorem exportVideo_resolves (primary secondary : StageOutcome)
    (timeoutWins : Bool) (emergency : StageOutcome) :
    (emergency = Except.ok () →
      exportVideo primary secondary timeoutWins emergency = Except.ok ()) ∧
    (∀ e : String,
      exportVideo primary secondary timeoutWins emergency = Except.error e →
        emergency = Except.error e) := by
  constructor
  · intro hem
    unfold exportVideo
    cases raceWithTimeout (createRealVideoFile primary secondary) timeoutWins with
    | ok u => rfl
    | error msg => exact hem
  · intro e he
    unfold exportVideo at he
    cases hrace : raceWithTimeout (createRealVideoFile primary secondary) timeoutWins with
    | ok u => rw [hrace] at he; exact absurd he (by simp)
    | error msg => rw [hrace] at he; exact he

/-- Witness for C2: both internal render attempts throw and the timeout also
fires, yet exportVideo resolves because the emergency tier delivers. -/
theorem exportVideo_resolves_witness :
    exportVideo (Except.error "MediaRecorder failed")
        (Except.error "Canvas not available") true (Except.ok ()) =
      Except.ok () :=
  (exportVideo_resolves (Except.error "MediaRecorder failed")
    (Except.error "Canvas not available") true (Except.ok ())).1 rfl

/-- Environment outcome of loading one media element: the load event fired,
the error event fired, or the guard timer fired first. -/
inductive LoadOutcome
  | success
  | loadError
  | timedOut
  deriving DecidableEq

/-- Preloaded media handle: the HTMLImageElement or HTMLVideoElement created
by preloadAllMediaElementsSafe. loaded records whether the load or metadata
event fired before the per-item wait resolved. -/
structure MediaHandle where
  isVideoElement : Bool
  loaded : Bool
  deriving DecidableEq

/-- Slot stored for one media item by preloadAllMediaElementsSafe (lines
660-720). For an image or a video item the created element object is stored
whatever the load outcome, because the error and timeout callbacks resolve
the per-item wait instead of rejecting it; the slot is null only for items
of any other type (audio), for which no element is ever created. -/
def preloadMediaElement (item : MediaItem) (outcome : LoadOutcome) :
    Option MediaHandle :=
  match item.mtype with
  | MediaType.image =>
      some { isVideoElement := false, loaded := decide (outcome = LoadOutcome.success) }
  | MediaType.video =>
      some { isVideoElement := true, loaded := decide (outcome = LoadOutcome.success) }
  | MediaType.audio => none

/-- Translation of preloadAllMediaElementsSafe (lines 655-723): one slot per
media item, keyed by item id, produced in input order; the load outcome of
each item is decided by the environment. The loop body never rejects, so the
aggregate always resolves to the complete map. -/
def preloadAllMediaElementsSafe (mediaItems : List MediaItem)
    (outcome : MediaItem → LoadOutcome) : List (String × Option MediaHandle) :=
  mediaItems.map fun item => (item.id, preloadMediaElement item (outcome item))

/-- Image item whose URL does not resolve. -/
def brokenImageItem : MediaItem :=
  { id := "img1", mtype := MediaType.image,
    url := some "https://example.com/missing.png", name := "missing.png" }

/-- Counterexample to C4: an image item whose load errors (a 404) still gets
a non-null slot holding the created element object; the claim that the slot
is null for a failed item does not hold. -/
theorem preload_broken_image_slot_not_null :
    preloadAllMediaElementsSafe [brokenImageItem] (fun _ => LoadOutcome.loadError) =
      [("img1", some { isVideoElement := false, loaded := false })] ∧
    preloadAllMediaElementsSafe [brokenImageItem] (fun _ => LoadOutcome.loadError) ≠
      [("img1", none)] := by
  constructor <;> decide

/-- Claim C4 (amended): the aggregate preload always resolves and yields one
slot per item in input order, each slot depending only on that item and its
own load outcome (so a failing item leaves every other slot unaffected); but
a slot is null exactly when the item is neither an image nor a video, while
image and video items keep their created element in the slot even when the
load errors or times out. -/
theorem preloadAllMediaElementsSafe_spec (mediaItems : List MediaItem)
    (outcome : MediaItem → LoadOutcome) :
    (preloadAllMediaElementsSafe mediaItems outcome).length = mediaItems.length ∧
    (∀ i : ℕ, (preloadAllMediaElementsSafe mediaItems outcome)[i]? =
      (mediaItems[i]?).map fun item =>
        (item.id, preloadMediaElement item (outcome item))) ∧
    (∀ item ∈ mediaItems,
      (preloadMediaElement item (outcome item) = none ↔
        (item.mtype ≠ MediaType.image ∧ item.mtype ≠ MediaType.video))) := by
  refine ⟨?_, ?_, ?_⟩
  · simp [preloadAllMediaElementsSafe]
  · intro i
    simp [preloadAllMediaElementsSafe]
  · intro item _
    cases h : item.mtype <;> simp [preloadMediaElement, h]

/-- Audio item used in the C4 witness, whose slot is null by type. -/
def sampleAudioItem : MediaItem :=
  { id := "aud1", mtype := MediaType.audio,
    url := some "https://example.com/track.mp3", name := "track.mp3" }

/-- Witness for the amended C4 on a one-item batch holding an audio item. -/
theorem preloadAllMediaElementsSafe_spec_witness :
    (preloadAllMediaElementsSafe [sampleAudioItem] (fun _ => LoadOutcome.success)).length = 1 ∧
    (preloadMediaElement sampleAudioItem (LoadOutcome.success) = none ↔
      (sampleAudioItem.mtype ≠ MediaType.image ∧
        sampleAudioItem.mtype ≠ MediaType.video)) :=
  ⟨(preloadAllMediaElementsSafe_spec [sampleAudioItem] (fun _ => LoadOutcome.success)).1,
   (preloadAllMediaElementsSafe_spec [sampleAudioItem]
      (fun _ => LoadOutcome.success)).2.2 sampleAudioItem (by simp)⟩

/-- Kind tag of a discovered audio source: a clip on an audio track, or the
embedded audio of a video clip on a media track. -/
inductive AudioSourceKind
  | audio
  | video
  deriving DecidableEq

/-- One source discovered by findAudioSources. -/
structure AudioSource where
  kind : AudioSourceKind
  element : TimelineElement
  item : MediaItem
  deriving DecidableEq

/-- Result of one lookup in findAudioSources: the JS guard
item && item.type === wanted && item.url, which pushes a source only when a
store item was found, has the wanted type, and carries a truthy url. -/
def sourceFromLookup (wanted : MediaType) (k : AudioSourceKind)
    (element : TimelineElement) : Option MediaItem → List AudioSource
  | some item =>
      if item.mtype = wanted ∧ urlTruthy item.url then
        [{ kind := k, element := element, item := item }]
      else []
  | none => []

/-- Sources contributed by one element in findAudioSources (lines 417-458):
push a source when the element sits on an audio track and references an
audio item with a truthy url, and push a source when it sits on a media
track and references a video item with a truthy url. The two pushes are
translated as list append; a track type can never satisfy both guards. -/
def audioSourcesOfElement (track : Track) (mediaItems : List MediaItem)
    (element : TimelineElement) : List AudioSource :=
  (if track.ttype = TrackType.audio ∧ element.kind = ElementKind.media then
    sourceFromLookup MediaType.audio AudioSourceKind.audio element
      (mediaItems.find? fun item => item.id == element.mediaId)
  else []) ++
  (if track.ttype = TrackType.media ∧ element.kind = ElementKind.media then
    sourceFromLookup MediaType.video AudioSourceKind.video element
      (mediaItems.find? fun item => item.id == element.mediaId)
  else [])

/-- Translation of findAudioSources (lines 417-458): collect over all tracks
and all their elements. -/
def findAudioSources (tracks : List Track) (mediaItems : List MediaItem) :
    List AudioSource :=
  tracks.flatMap fun track =>
    track.elements.flatMap (audioSourcesOfElement track mediaItems)

/-- Translation of createSafeAudioStream (lines 366-415): with no discovered
source the function returns null before any mixing is set up; otherwise each
source is connected (per-source success decided by the environment), and the
function again returns null when no source connected, else the destination
stream carrying the connected sources. -/
def createSafeAudioStream (tracks : List Track) (mediaItems : List MediaItem)
    (connects : AudioSource → Bool) : Option (List AudioSource) :=
  let audioSources := findAudioSources tracks mediaItems
  if audioSources.length = 0 then none
  else
    let connected := audioSources.filter connects
    if connected.length = 0 then none else some connected

/-- MediaRecorder configuration built in createRealVideoFile (lines 294-301). -/
structure RecorderConfig where
  mimeType : String
  videoBitsPerSecond : ℚ
  audioBitsPerSecond : Option ℚ
  deriving DecidableEq

/-- Recorder options from createRealVideoFile (lines 294-301): hasAudio
selects the mime type and makes audioBitsPerSecond 128000 or undefined. -/
def configureRecorder (hasAudio : Bool) (customBitrate : ℚ) : RecorderConfig :=
  { mimeType := if hasAudio then "video/webm;codecs=vp8,opus" else "video/webm;codecs=vp8",
    videoBitsPerSecond := customBitrate * 1000,
    audioBitsPerSecond := if hasAudio then some 128000 else none }

/-- The recorder configuration the export ends up using: hasAudio is the
truthiness of the stream returned by createSafeAudioStream (lines 270-301). -/
def exportRecorderConfig (tracks : List Track) (mediaItems : List MediaItem)
    (connects : AudioSource → Bool) (customBitrate : ℚ) : RecorderConfig :=
  configureRecorder (createSafeAudioStream tracks mediaItems connects).isSome customBitrate

/-- No element of the given track contributes a source when no store item
matching its id has the source-relevant type for that track. -/
theorem audioSourcesOfElement_eq_nil (track : Track) (mediaItems : List MediaItem)
    (element : TimelineElement)
    (h : ∀ item ∈ mediaItems, item.id = element.mediaId →
      ¬(track.ttype = TrackType.audio ∧ element.kind = ElementKind.media ∧
          item.mtype = MediaType.audio) ∧
      ¬(track.ttype = TrackType.media ∧ element.kind = ElementKind.media ∧
          item.mtype = MediaType.video)) :
    audioSourcesOfElement track mediaItems element = [] := by
  unfold audioSourcesOfElement
  cases hf : mediaItems.find? (fun item => item.id == element.mediaId) with
  | none =>
    split <;> split <;> simp [sourceFromLookup]
  | some item =>
    have hmem : item ∈ mediaItems := List.mem_of_find?_eq_some hf
    have hid : item.id = element.mediaId := by
      have hp := List.find?_some hf
      simpa using hp
    obtain ⟨h1, h2⟩ := h item hmem hid
    rw [List.append_eq_nil]
    constructor
    · split
      case isTrue hc1 =>
        simp only [sourceFromLookup]
        rw [if_neg]
        rintro ⟨hmt, _⟩
        exact h1 ⟨hc1.1, hc1.2, hmt⟩
      case isFalse hc1 => rfl
    · split
      case isTrue hc2 =>
        simp only [sourceFromLookup]
        rw [if_neg]
        rintro ⟨hmt, _⟩
        exact h2 ⟨hc2.1, hc2.2, hmt⟩
      case isFalse hc2 => rfl

/-- Claim C5: when no audio source is discovered on the timeline (no media
element on an audio track referencing an audio item, and no media element on
a media track referencing a video item), createSafeAudioStream returns null
and the recorder is configured video-only with audioBitsPerSecond undefined. -/
theorem createSafeAudioStream_no_sources (tracks : List Track)
    (mediaItems : List MediaItem) (connects : AudioSource → Bool) (customBitrate : ℚ)
    (h : ∀ track ∈ tracks, ∀ element ∈ track.elements, ∀ item ∈ mediaItems,
      item.id = element.mediaId →
        ¬(track.ttype = TrackType.audio ∧ element.kind = ElementKind.media ∧
            item.mtype = MediaType.audio) ∧
        ¬(track.ttype = TrackType.media ∧ element.kind = ElementKind.media ∧
            item.mtype = MediaType.video)) :
    createSafeAudioStream tracks mediaItems connects = none ∧
    (exportRecorderConfig tracks mediaItems connects customBitrate).audioBitsPerSecond
      = none := by
  have hempty : findAudioSources tracks mediaItems = [] := by
    unfold findAudioSources
    rw [List.flatMap_eq_nil_iff]
    intro track htrack
    rw [List.flatMap_eq_nil_iff]
    intro element helement
    exact audioSourcesOfElement_eq_nil track mediaItems element
      (fun item hitem hid => h track htrack element helement item hitem hid)
  have hnone : createSafeAudioStream tracks mediaItems connects = none := by
    unfold createSafeAudioStream
    rw [hempty]
    rfl
  refine ⟨hnone, ?_⟩
  unfold exportRecorderConfig
  rw [hnone]
  rfl

/-- Text element placed on a media track, used in the C5 witness. -/
def titleElem : TimelineElement :=
  { kind := ElementKind.text, mediaId := "", name := "title",
    startTime := 0, duration := 3, trimStart := 0, trimEnd := 0, fontSize := some 48 }

/-- Media track holding only the title text element. -/
def titleTrack : Track :=
  { ttype := TrackType.media, order := some 0, elements := [titleElem] }

/-- Witness for C5: a timeline with one text element and an empty media
store has no audio source, so the stream is null and the recorder video-only. -/
theorem createSafeAudioStream_no_sources_witness :
    createSafeAudioStream [titleTrack] [] (fun _ => true) = none ∧
    (exportRecorderConfig [titleTrack] [] (fun _ => true) 5000).audioBitsPerSecond = none :=
  createSafeAudioStream_no_sources [titleTrack] [] (fun _ => true) 5000
    (by intro track _ element _ item hitem; exact absurd hitem (List.not_mem_nil item))

/-- Sort key of renderActiveElementsSafe (lines 773-777): the comparator
reads a.track.order || 0, so a missing order counts as 0. -/
def trackOrderKey (entry : ActiveEntry) : ℚ := jsOrQ entry.track.order 0

/-- Comparator relation of the sort: ascending track order. -/
def keyLE (a b : ActiveEntry) : Prop := trackOrderKey a ≤ trackOrderKey b

instance : DecidableRel keyLE := fun a b =>
  inferInstanceAs (Decidable (trackOrderKey a ≤ trackOrderKey b))

instance : IsTotal ActiveEntry keyLE :=
  ⟨fun a b => le_total (trackOrderKey a) (trackOrderKey b)⟩

instance : IsTrans ActiveEntry keyLE :=
  ⟨fun _ _ _ hab hbc => le_trans hab hbc⟩

/-- The sort in renderActiveElementsSafe (lines 772-777):
[...activeElements].sort((a, b) => orderA - orderB). A JS comparator sort is
stable and orders ascending by the numeric key, and a stable ascending sort
by a key is unique, so it is modelled by the stable insertion sort. -/
def sortActiveElements (activeElements : List ActiveEntry) : List ActiveEntry :=
  activeElements.insertionSort keyLE

/-- One draw operation of the frame compositor. -/
inductive DrawOp
  | background (color : String)
  | media (element : TimelineElement) (item : Option MediaItem)
  | text (element : TimelineElement)
  deriving DecidableEq

/-- Draw operation emitted for one entry in the loop of
renderActiveElementsSafe (lines 780-796): a media element is drawn via
renderMediaElementSafe and a text element via renderTextElementSafe, each at
the position its entry holds in the sorted list. -/
def drawOpOfEntry (entry : ActiveEntry) : DrawOp :=
  match entry.element.kind with
  | ElementKind.media => DrawOp.media entry.element entry.mediaItem
  | ElementKind.text => DrawOp.text entry.element

/-- Translation of renderActiveElementsSafe (lines 759-797) at the level of
the emitted draw operations. -/
def renderActiveElementsSafe (activeElements : List ActiveEntry) : List DrawOp :=
  (sortActiveElements activeElements).map drawOpOfEntry

/-- One frame of renderVideoContentSafe (lines 569-584): fill the background
with the project background color, then render the active elements. -/
def renderFrameOps (backgroundColor : String) (activeElements : List ActiveEntry) :
    List DrawOp :=
  DrawOp.background backgroundColor :: renderActiveElementsSafe activeElements

/-- Stability of one ordered insertion, stated through filtering at a fixed
key: inserting x leaves the subsequence of entries with any given key equal
to the one of x consed on the old list. -/
theorem filter_orderedInsert_key (k : ℚ) (x : ActiveEntry) (l : List ActiveEntry) :
    (l.orderedInsert keyLE x).filter (fun e => decide (trackOrderKey e = k)) =
      ((x :: l).filter fun e => decide (trackOrderKey e = k)) := by
  induction l with
  | nil => rfl
  | cons b bs ih =>
    by_cases hxb : keyLE x b
    · rw [List.orderedInsert, if_pos hxb]
    · rw [List.orderedInsert, if_neg hxb]
      by_cases hxk : trackOrderKey x = k
      · have hbk : ¬ trackOrderKey b = k := by
          intro hbk
          exact hxb (le_of_eq (hxk.trans hbk.symm))
        simp [List.filter_cons, hxk, hbk, ih]
      · simp [List.filter_cons, hxk, ih]

/-- Stability of the whole sort through filtering at a fixed key. -/
theorem filter_insertionSort_key (k : ℚ) (xs : List ActiveEntry) :
    (xs.insertionSort keyLE).filter (fun e => decide (trackOrderKey e = k)) =
      xs.filter (fun e => decide (trackOrderKey e = k)) := by
  induction xs with
  | nil => rfl
  | cons x l ih =>
    rw [List.insertionSort, filter_orderedInsert_key]
    simp [List.filter_cons, ih]

/-- Claim C7: for a fixed active set the draw order sorts the entries by
ascending track order (a missing order counting as 0), the sort is a stable
permutation (entries with equal keys keep their input order, stated through
filtering at each key), and rendering the same active set twice emits the
same draw sequence. -/
theorem renderActiveElementsSafe_deterministic (xs : List ActiveEntry) :
    List.Sorted keyLE (sortActiveElements xs) ∧
    (sortActiveElements xs).Perm xs ∧
    (∀ k : ℚ, (sortActiveElements xs).filter (fun e => decide (trackOrderKey e = k)) =
      xs.filter (fun e => decide (trackOrderKey e = k))) ∧
    renderActiveElementsSafe xs = renderActiveElementsSafe xs := by
  refine ⟨List.sorted_insertionSort keyLE xs, List.perm_insertionSort keyLE xs, ?_, rfl⟩
  intro k
  exact filter_insertionSort_key k xs

/-- Text element on the low-order track of the C8 counterexample. -/
def captionElem : TimelineElement :=
  { kind := ElementKind.text, mediaId := "", name := "caption",
    startTime := 0, duration := 5, trimStart := 0, trimEnd := 0, fontSize := none }

/-- Media element on the high-order track of the C8 counterexample. -/
def clipElem : TimelineElement :=
  { kind := ElementKind.media, mediaId := "m1", name := "clip",
    startTime := 0, duration := 5, trimStart := 0, trimEnd := 0, fontSize := none }

/-- Text track with order 0. -/
def captionTrack : Track :=
  { ttype := TrackType.text, order := some 0, elements := [captionElem] }

/-- Media track with order 1. -/
def clipTrack : Track :=
  { ttype := TrackType.media, order := some 1, elements := [clipElem] }

/-- Active entry for the caption. -/
def captionEntry : ActiveEntry :=
  { element := captionElem, track := captionTrack, mediaItem := none }

/-- Active entry for the clip. -/
def clipEntry : ActiveEntry :=
  { element := clipElem, track := clipTrack, mediaItem := none }

/-- Counterexample to C8: with the text element on track order 0 and the
media element on track order 1, the frame draws the text at position 1,
before the media at position 2, so a text element can be drawn before a
media element of the same frame. -/
theorem renderFrameOps_text_before_media :
    renderFrameOps "#000000" [captionEntry, clipEntry] =
      [DrawOp.background "#000000", DrawOp.text captionElem,
        DrawOp.media clipElem none] := by
  decide

/-- Claim C8 (amended): within one frame the background fill is the first
draw operation, and every active element, media and text alike, then
contributes exactly one draw operation in ascending track order (as a stable
permutation of the active set); text is drawn above media only when its
track order is not lower, not unconditionally. -/
theorem renderFrameOps_spec (backgroundColor : String) (xs : List ActiveEntry) :
    (renderFrameOps backgroundColor xs).head? = some (DrawOp.background backgroundColor) ∧
    (renderFrameOps backgroundColor xs).tail = (sortActiveElements xs).map drawOpOfEntry ∧
    List.Sorted keyLE (sortActiveElements xs) ∧
    (sortActiveElements xs).Perm xs :=
  ⟨rfl, rfl, List.sorted_insertionSort keyLE xs, List.perm_insertionSort keyLE xs⟩

end OpenCut
